import Mathlib

/-!
# Verification of the go-ecommerceAPI product CRUD pipeline

Shallow embedding of the three-layer pipeline (HTTP handler → service →
SQL repository) of `dotslashbit/go-ecommerceAPI`, together with proofs
about its documented behaviour.

Source files embedded:
* `internal/product/model.go` (shipped as `src/unnamed/part_000`): the
  record types `Product`, `CreateProductInput`, `UpdateProductInput`,
  `ProductFilter`, `PaginationParams`.
* `internal/product/repository.go`: the SQL repository (`Create`,
  `GetByID`, `List`, `Update`, `Delete`), whose dynamically assembled
  SQL statements are embedded both structurally (clause/argument lists)
  and, for `Update`, textually (the exact query-string concatenation).
* `internal/product/service.go` (shipped as `src/unnamed/part_001`): the
  validation/error-translation layer with its sentinels
  `ErrProductNotFound` and `ErrInvalidInput`.
* `internal/product/handler.go`: request decoding and the error-kind →
  HTTP-status mapping.

Modelling conventions:
* Go `float64` prices are modelled as `Rat`; the claims only involve
  order comparisons, never floating-point rounding.
* Timestamps (`created_at`, `updated_at`) are modelled as `Nat` ticks.
* A database table is a `List Product`; statements that Go sends to
  PostgreSQL are given executable semantics over that list, mirroring
  the SQL text the repository builds (`ORDER BY created_at DESC`,
  `LIMIT`, `OFFSET`, `ILIKE`, `COUNT(*)`, `SET`/`WHERE` clauses).
* A Go `error` value is modelled by `GoErr`, which records the message
  and whether `errors.Is(err, sql.ErrNoRows)` holds for it: the
  repository wraps `sql.ErrNoRows` with `%w` only in `GetByID`
  (repository.go line 56), so only that error has `wrapsNoRows = true`.
-/

namespace ECommerce

/-! ## Character-level string primitives

Lean's own `String.splitOn`, `String.startsWith`, … are implemented by
well-founded recursion on byte positions, which the kernel cannot
evaluate; the embedding therefore works on `String.data` character
lists with structurally recursive equivalents, so that every definition
below evaluates under `decide`/`rfl`. -/

/-- Rebuild a string from its characters. -/
def strOfChars (l : List Char) : String := ⟨l⟩

/-- ASCII decimal digit. -/
def isDigitChar (c : Char) : Bool := 48 ≤ c.toNat && c.toNat ≤ 57

/-- ASCII identifier character (letter or underscore). -/
def isIdentChar (c : Char) : Bool :=
  (65 ≤ c.toNat && c.toNat ≤ 90) || (97 ≤ c.toNat && c.toNat ≤ 122) || c.toNat == 95

/-- ASCII lower-casing of one character. -/
def lowerChar (c : Char) : Char :=
  if 65 ≤ c.toNat && c.toNat ≤ 90 then Char.ofNat (c.toNat + 32) else c

/-- ASCII lower-casing of a character list. -/
def lowerChars (l : List Char) : List Char := l.map lowerChar

/-- `needle` occurs contiguously inside `hay`. -/
def containsSeq (needle : List Char) : List Char → Bool
  | [] => needle.isEmpty
  | c :: rest => needle.isPrefixOf (c :: rest) || containsSeq needle rest

/-- Split on a separator sequence, fuelled for structural recursion. -/
def splitSepAux (sep : List Char) : Nat → List Char → List Char → List (List Char)
  | 0, l, acc => [acc.reverse ++ l]
  | Nat.succ fuel, l, acc =>
    match l with
    | [] => [acc.reverse]
    | c :: rest =>
        if sep.isPrefixOf (c :: rest) then
          acc.reverse :: splitSepAux sep fuel (List.drop sep.length (c :: rest)) []
        else
          splitSepAux sep fuel rest (c :: acc)

/-- Split a character list on a separator sequence (the behaviour of
Go's `strings.Split` / Lean's `String.splitOn` on the inputs used
here). -/
def splitSep (sep l : List Char) : List (List Char) :=
  splitSepAux sep (l.length + 1) l []

/-- Decimal value of a digit-character list. -/
def digitsVal (l : List Char) : Nat :=
  l.foldl (fun n c => 10 * n + (c.toNat - 48)) 0

/-- Decimal digit character. -/
def digitChar (n : Nat) : Char := Char.ofNat (48 + n)

/-- Decimal rendering of a natural number, fuelled. -/
def natCharsAux : Nat → Nat → List Char
  | 0, _ => []
  | Nat.succ fuel, n =>
      if n < 10 then [digitChar n] else natCharsAux fuel (n / 10) ++ [digitChar (n % 10)]

/-- Decimal rendering of a natural number. -/
def natChars (n : Nat) : List Char := natCharsAux (n + 1) n

/-- Decimal rendering of a natural number as a string. -/
def natStr (n : Nat) : String := strOfChars (natChars n)

/-- Decimal rendering of an integer as a string. -/
def intStr (i : Int) : String :=
  if i < 0 then "-" ++ natStr (-i).toNat else natStr i.toNat

/-- `strings.TrimSuffix`: remove one occurrence of the suffix when
present, otherwise return the string unchanged. -/
def trimSuffix (s suff : String) : String :=
  if suff.data.isSuffixOf s.data then
    strOfChars (s.data.take (s.data.length - suff.data.length))
  else s

/-- Equality test for `Except` results, so concrete pipeline outcomes
can be settled by `decide`. -/
instance instDecEqExcept {ε α : Type} [DecidableEq ε] [DecidableEq α] :
    DecidableEq (Except ε α)
  | Except.ok a, Except.ok b =>
      if h : a = b then isTrue (by rw [h]) else isFalse (fun hc => by cases hc; exact h rfl)
  | Except.ok _, Except.error _ => isFalse (fun hc => by cases hc)
  | Except.error _, Except.ok _ => isFalse (fun hc => by cases hc)
  | Except.error e, Except.error f =>
      if h : e = f then isTrue (by rw [h]) else isFalse (fun hc => by cases hc; exact h rfl)

/-- `Product` from model.go: id, name, description, price, categories
(text array), created/updated timestamps. -/
structure Product where
  id : Int
  name : String
  description : String
  price : Rat
  categories : List String
  created_at : Nat
  updated_at : Nat
deriving Repr, DecidableEq

/-- `CreateProductInput` from model.go. None of its fields carries a
`validate` struct tag in the source. -/
structure CreateProductInput where
  name : String
  description : String
  price : Rat
  categories : List String
deriving Repr, DecidableEq

/-- `UpdateProductInput` from model.go: every field is a pointer
(tri-state: `none` = absent = leave unchanged). None of its fields
carries a `validate` struct tag in the source. -/
structure UpdateProductInput where
  name : Option String
  description : Option String
  price : Option Rat
  categories : Option (List String)
deriving Repr, DecidableEq

/-- `ProductFilter`. model.go declares `CategoryID *int64`, but
repository.go dereferences it as a string (`*filter.CategoryID != ""`,
`"%"+*filter.CategoryID+"%"`, lines 71–73), so the two files disagree;
the repository's usage is authoritative for the List embedding and the
field is modelled as an optional string. -/
structure ProductFilter where
  category_id : Option String
  min_price : Option Rat
  max_price : Option Rat
  search : Option String
deriving Repr, DecidableEq

/-- `PaginationParams` from model.go, with struct tags
`validate:"required,min=1"` on Page and `validate:"required,min=1,max=100"`
on Limit. -/
structure PaginationParams where
  page : Int
  limit : Int
deriving Repr, DecidableEq

/-- A Go `error` value as the claims need it: the message text plus
whether `errors.Is(err, sql.ErrNoRows)` holds (i.e. whether the error
chain wraps the `sql.ErrNoRows` sentinel). -/
structure GoErr where
  msg : String
  wrapsNoRows : Bool
deriving Repr, DecidableEq

/-! ## Repository: List (repository.go lines 64–113)

The WHERE fragment is embedded structurally: a `Clause` for each SQL
condition string the Go code appends to `whereClause`, and an `SqlArg`
for each value it appends to `args`, under exactly the source's guards. -/

/-- One SQL positional argument as appended to `args` in repository.go. -/
inductive SqlArg where
  | s (v : String)
  | f (v : Rat)
  | i (v : Int)
deriving Repr, DecidableEq

/-- One WHERE condition of the List query.
`categoryIlike c` stands for
`EXISTS (SELECT 1 FROM unnest(categories) category WHERE category ILIKE $n)`
with the bound argument `"%" ++ c ++ "%"`; `searchTs q` stands for
`(to_tsvector('english', name) @@ plainto_tsquery('english', $n) OR
  to_tsvector('english', description) @@ plainto_tsquery('english', $n))`. -/
inductive Clause where
  | categoryIlike (c : String)
  | minPrice (v : Rat)
  | maxPrice (v : Rat)
  | searchTs (q : String)
deriving Repr, DecidableEq

/-- The `whereClause` and `args` lists built by repository.List
(lines 71–90), one append pair per supplied filter field, in source
order, with the source's emptiness guards on the two string fields. -/
def whereParts (filter : ProductFilter) : List Clause × List SqlArg :=
  let acc : List Clause × List SqlArg := ([], [])
  let acc := match filter.category_id with
    | some c =>
        if c ≠ "" then (acc.1 ++ [Clause.categoryIlike c], acc.2 ++ [SqlArg.s ("%" ++ c ++ "%")])
        else acc
    | none => acc
  let acc := match filter.min_price with
    | some v => (acc.1 ++ [Clause.minPrice v], acc.2 ++ [SqlArg.f v])
    | none => acc
  let acc := match filter.max_price with
    | some v => (acc.1 ++ [Clause.maxPrice v], acc.2 ++ [SqlArg.f v])
    | none => acc
  let acc := match filter.search with
    | some q =>
        if q ≠ "" then (acc.1 ++ [Clause.searchTs q], acc.2 ++ [SqlArg.s q])
        else acc
    | none => acc
  acc

/-- The WHERE-clause argument list of repository.List. -/
def whereArgs (filter : ProductFilter) : List SqlArg :=
  (whereParts filter).2

/-- The full argument list of the page query: WHERE arguments followed by
`pagination.Limit` and `(pagination.Page-1)*pagination.Limit`
(repository.go line 98). -/
def listQueryArgs (filter : ProductFilter) (pg : PaginationParams) : List SqlArg :=
  whereArgs filter ++ [SqlArg.i pg.limit, SqlArg.i ((pg.page - 1) * pg.limit)]

/-- The argument list passed to the count query:
`args[:len(args)-2]` (repository.go line 107). -/
def countQueryArgs (filter : ProductFilter) (pg : PaginationParams) : List SqlArg :=
  (listQueryArgs filter pg).take ((listQueryArgs filter pg).length - 2)

/-- Case-insensitive containment: `needle` occurs inside `hay` ignoring
case. This is the meaning of `hay ILIKE '%needle%'` in PostgreSQL. -/
def lowerContains (hay needle : String) : Bool :=
  containsSeq (lowerChars needle.data) (lowerChars hay.data)

/-- The words of a string, lower-cased. -/
def wordsOf (s : String) : List (List Char) :=
  (splitSep [' '] (lowerChars s.data)).filter (fun w => !w.isEmpty)

/-- Semantics of PostgreSQL natural-language text search
(`to_tsvector('english', doc) @@ plainto_tsquery('english', q)`),
modelled as: every word of the query occurs as a word of the document,
case-insensitively. The spec likewise delegates to "the database's
natural-language text search", so only the OR/AND structure around this
predicate matters to the claims. -/
def tsMatch (q doc : String) : Bool :=
  (wordsOf q).all (fun w => (wordsOf doc).contains w)

/-- Evaluation of one WHERE condition at a row, following the SQL
semantics of the condition string it stands for. -/
def evalClause (p : Product) : Clause → Bool
  | Clause.categoryIlike c => p.categories.any (fun cat => lowerContains cat c)
  | Clause.minPrice v => decide (v ≤ p.price)
  | Clause.maxPrice v => decide (p.price ≤ v)
  | Clause.searchTs q => tsMatch q p.name || tsMatch q p.description

/-- A row satisfies the List query's WHERE fragment: the clauses are
joined with `" AND "` (repository.go line 93), so all must hold. -/
def rowMatches (filter : ProductFilter) (p : Product) : Bool :=
  ((whereParts filter).1).all (evalClause p)

/-- The List matching predicate as the spec words it (spec §4.1), for
comparison with `rowMatches`: "category match is case-insensitive
substring match against any element of the categories set; price bounds
are inclusive; free-text search matches name OR description …; all
supplied predicates are ANDed". An empty category/search string counts
as not supplied, which is the source's guard and the only shape the
handler ever sends. -/
def specListPred (filter : ProductFilter) (p : Product) : Bool :=
  (match filter.category_id with
   | none => true
   | some c => if c = "" then true else p.categories.any (fun cat => lowerContains cat c)) &&
  (match filter.min_price with
   | none => true
   | some v => decide (v ≤ p.price)) &&
  (match filter.max_price with
   | none => true
   | some v => decide (p.price ≤ v)) &&
  (match filter.search with
   | none => true
   | some s => if s = "" then true else (tsMatch s p.name || tsMatch s p.description))

/-- The order `ORDER BY created_at DESC` sorts by: descending creation
time. -/
def createdGe (a b : Product) : Prop := b.created_at ≤ a.created_at

instance : DecidableRel createdGe := fun a b => Nat.decLe b.created_at a.created_at

instance : IsTotal Product createdGe := ⟨fun a b => Nat.le_total b.created_at a.created_at⟩

instance : IsTrans Product createdGe := ⟨fun _ _ _ h1 h2 => Nat.le_trans h2 h1⟩

/-- Executable semantics of repository.List against a model table:
rows satisfying the WHERE fragment, ordered by `created_at DESC`
(any sort respecting `createdGe`; insertion sort keeps the model
kernel-evaluable), with `OFFSET (page-1)*limit` and `LIMIT limit`
(lines 97–98), paired with the result of the count query (same WHERE
fragment, no pagination). -/
def runList (db : List Product) (filter : ProductFilter) (pg : PaginationParams) :
    List Product × Nat :=
  let matched := db.filter (rowMatches filter)
  let sorted := matched.insertionSort createdGe
  let rows := (sorted.drop ((pg.page - 1) * pg.limit).toNat).take pg.limit.toNat
  (rows, matched.length)

/-! ## Repository: Update (repository.go lines 116–161)

The UPDATE statement is embedded twice, both readings taken from the
same source lines: `updateQuery` reproduces the exact string
concatenation (including `strings.TrimSuffix(query, ", ")`), and
`setAssignments` records the column assignments it denotes, one per
present field in source order, plus `updated_at = NOW()`. -/

/-- The SQL text repository.Update builds: starts from
`"UPDATE products SET "`, appends `"<col> = $<argID>, "` for each
present field, trims a trailing `", "`, then appends
`", updated_at = NOW() WHERE id = $<argID>"`. -/
def updateQuery (input : UpdateProductInput) : String := Id.run do
  let mut query := "UPDATE products SET "
  let mut argID : Nat := 1
  if input.name.isSome then
    query := query ++ "name = $" ++ natStr argID ++ ", "
    argID := argID + 1
  if input.description.isSome then
    query := query ++ "description = $" ++ natStr argID ++ ", "
    argID := argID + 1
  if input.price.isSome then
    query := query ++ "price = $" ++ natStr argID ++ ", "
    argID := argID + 1
  if input.categories.isSome then
    query := query ++ "categories = $" ++ natStr argID ++ ", "
    argID := argID + 1
  query := trimSuffix query ", "
  query := query ++ ", updated_at = NOW() WHERE id = $" ++ natStr argID
  return query

/-- The argument list repository.Update passes with the statement: the
present field values in source order, then the id (line 144). -/
def updateArgs (input : UpdateProductInput) (id : Int) : List SqlArg :=
  (match input.name with | some v => [SqlArg.s v] | none => []) ++
  (match input.description with | some v => [SqlArg.s v] | none => []) ++
  (match input.price with | some v => [SqlArg.f v] | none => []) ++
  (match input.categories with | some v => v.map SqlArg.s | none => []) ++
  [SqlArg.i id]

/-- A value on the right-hand side of one SET assignment. -/
inductive SetVal where
  | str (v : String)
  | num (v : Rat)
  | strs (v : List String)
  | nowTime
deriving Repr, DecidableEq

/-- The column assignments the UPDATE statement carries: one per present
field, in the order the source appends them, plus `updated_at = NOW()`. -/
def setAssignments (input : UpdateProductInput) : List (String × SetVal) :=
  (match input.name with | some v => [("name", SetVal.str v)] | none => []) ++
  (match input.description with | some v => [("description", SetVal.str v)] | none => []) ++
  (match input.price with | some v => [("price", SetVal.num v)] | none => []) ++
  (match input.categories with | some v => [("categories", SetVal.strs v)] | none => []) ++
  [("updated_at", SetVal.nowTime)]

/-- Effect of one SET assignment on a row (`NOW()` evaluates to the
current tick). -/
def applyAssignment (now : Nat) (p : Product) : String × SetVal → Product
  | ("name", SetVal.str v) => { p with name := v }
  | ("description", SetVal.str v) => { p with description := v }
  | ("price", SetVal.num v) => { p with price := v }
  | ("categories", SetVal.strs v) => { p with categories := v }
  | ("updated_at", SetVal.nowTime) => { p with updated_at := now }
  | _ => p

/-- Effect of the whole SET list on a row. -/
def applyUpdate (now : Nat) (input : UpdateProductInput) (p : Product) : Product :=
  (setAssignments input).foldl (applyAssignment now) p

/-- One element of an UPDATE SET list is grammatical:
`<column> = <expression>` with a nonempty identifier column and a
nonempty right-hand side. -/
def isAssignmentText (l : List Char) : Bool :=
  match splitSep " = ".data l with
  | [col, rhs] => !col.isEmpty && !rhs.isEmpty && col.all isIdentChar
  | _ => false

/-- PostgreSQL-side grammar check for the statements `updateQuery`
produces: `UPDATE products SET <assignments> WHERE <cond>` where the SET
list is a `", "`-separated sequence of grammatical assignments. The
database accepts the statement only when this holds; the empty element
produced by a leading `", "` (as in `SET , updated_at = ...`) is a
grammar violation. -/
def wellFormedUpdateQuery (q : String) : Bool :=
  match splitSep " WHERE ".data q.data with
  | [head, cond] =>
      if "UPDATE products SET ".data.isPrefixOf head then
        let setPart := head.drop "UPDATE products SET ".data.length
        !cond.isEmpty && (splitSep ", ".data setPart).all isAssignmentText
      else false
  | _ => false

/-! ## Repository operations over a model table -/

/-- repository.GetByID: `SELECT * FROM products WHERE id = $1`; on no
row the source wraps `sql.ErrNoRows` with `%w`
(`fmt.Errorf("product not found: %w", err)`, line 56), so the returned
error satisfies `errors.Is(·, sql.ErrNoRows)`. -/
def repoGetByID (db : List Product) (id : Int) : Except GoErr Product :=
  match db.find? (fun p => p.id == id) with
  | some p => Except.ok p
  | none => Except.error { msg := "product not found: sql: no rows in result set", wrapsNoRows := true }

/-- repository.Update: the database executes the built statement only if
it is grammatical; with zero rows affected the source returns the plain
`fmt.Errorf("product not found")` (line 157), which wraps nothing; else
every row with the id gets the SET list applied. -/
def repoUpdate (db : List Product) (now : Nat) (id : Int) (input : UpdateProductInput) :
    Except GoErr (List Product) :=
  if wellFormedUpdateQuery (updateQuery input) then
    if (db.filter (fun p => p.id == id)).length == 0 then
      Except.error { msg := "product not found", wrapsNoRows := false }
    else
      Except.ok (db.map (fun p => if p.id == id then applyUpdate now input p else p))
  else
    Except.error { msg := "error updating product: invalid statement", wrapsNoRows := false }

/-- repository.Delete: `DELETE FROM products WHERE id = $1`; with zero
rows affected the source returns the plain
`fmt.Errorf("product not found")` (line 177), which wraps nothing. -/
def repoDelete (db : List Product) (id : Int) : Except GoErr (List Product) :=
  if (db.filter (fun p => p.id == id)).length == 0 then
    Except.error { msg := "product not found", wrapsNoRows := false }
  else
    Except.ok (db.filter (fun p => !(p.id == id)))

/-- repository.Create: `INSERT ... RETURNING id, created_at, updated_at`;
the database assigns the next serial id and both timestamps, and the
returned values are scanned back into the record. -/
def repoCreate (db : List Product) (now : Nat) (newId : Int) (p : Product) :
    Except GoErr (List Product × Product) :=
  let row := { p with id := newId, created_at := now, updated_at := now }
  Except.ok (db ++ [row], row)

/-! ## Service layer (service.go, shipped as `src/unnamed/part_001`) -/

/-- A service-level error as the handler discriminates it: either one of
the two package sentinels (`ErrProductNotFound`, `ErrInvalidInput`,
compared with `==` in handler.go) or any other error passed through
unchanged. -/
inductive SvcErr where
  | errProductNotFound
  | errInvalidInput
  | passthrough (e : GoErr)
deriving Repr, DecidableEq

/-- `validator.Struct` on `CreateProductInput`: the struct declares no
`validate` tags, so go-playground/validator checks nothing and always
succeeds. -/
def validateCreateInput (_ : CreateProductInput) : Bool := true

/-- `validator.Struct` on `UpdateProductInput`: no `validate` tags, so
the call always succeeds. -/
def validateUpdateInput (_ : UpdateProductInput) : Bool := true

/-- `validator.Struct` on `PaginationParams` with tags
`required,min=1` (page) and `required,min=1,max=100` (limit); `required`
on an int rejects zero, which `min=1` subsumes. -/
def validatePagination (pg : PaginationParams) : Bool :=
  decide (1 ≤ pg.page) && decide (1 ≤ pg.limit) && decide (pg.limit ≤ 100)

/-- The `errors.Is(err, sql.ErrNoRows)` translation the service applies
to repository errors in GetProductByID/UpdateProduct/DeleteProduct:
`ErrProductNotFound` exactly when the chain wraps `sql.ErrNoRows`,
otherwise the error passes through unchanged. -/
def liftRepoErr (e : GoErr) : SvcErr :=
  if e.wrapsNoRows then SvcErr.errProductNotFound else SvcErr.passthrough e

/-- service.CreateProduct. The second component records whether the
repository's `Create` was invoked. -/
def serviceCreate (db : List Product) (now : Nat) (newId : Int)
    (input : CreateProductInput) : Except SvcErr Product × Bool :=
  if validateCreateInput input then
    match repoCreate db now newId
        { id := 0, name := input.name, description := input.description,
          price := input.price, categories := input.categories,
          created_at := 0, updated_at := 0 } with
    | Except.ok (_, prod) => (Except.ok prod, true)
    | Except.error e => (Except.error (SvcErr.passthrough e), true)
  else
    (Except.error SvcErr.errInvalidInput, false)

/-- service.GetProductByID. -/
def serviceGet (db : List Product) (id : Int) : Except SvcErr Product :=
  match repoGetByID db id with
  | Except.ok p => Except.ok p
  | Except.error e => Except.error (liftRepoErr e)

/-- service.ListProducts: validates pagination, then delegates. -/
def serviceList (db : List Product) (filter : ProductFilter) (pg : PaginationParams) :
    Except SvcErr (List Product × Nat) :=
  if validatePagination pg then Except.ok (runList db filter pg)
  else Except.error SvcErr.errInvalidInput

/-- service.UpdateProduct: validates the input struct (vacuously), then
delegates and applies the `errors.Is` translation. -/
def serviceUpdate (db : List Product) (now : Nat) (id : Int)
    (input : UpdateProductInput) : Except SvcErr (List Product) :=
  if validateUpdateInput input then
    match repoUpdate db now id input with
    | Except.ok db' => Except.ok db'
    | Except.error e => Except.error (liftRepoErr e)
  else
    Except.error SvcErr.errInvalidInput

/-- service.DeleteProduct. -/
def serviceDelete (db : List Product) (id : Int) : Except SvcErr (List Product) :=
  match repoDelete db id with
  | Except.ok db' => Except.ok db'
  | Except.error e => Except.error (liftRepoErr e)

/-! ## Handler layer (handler.go)

Query/path values arrive as raw strings; `strconv` parsing is modelled
on the decimal numerals these endpoints receive (`ParseFloat`'s
exponent/hex/infinity forms are never produced by the spec's inputs and
are immaterial to every claim: only parse success on plain numerals and
parse failure on non-numeric text matter). -/

/-- `strconv.ParseInt(s, 10, 64)`: optional sign, nonempty digit run,
value within the 64-bit range. -/
def parseGoInt (s : String) : Option Int :=
  let body : Int × List Char :=
    match s.data with
    | '-' :: rest => (-1, rest)
    | '+' :: rest => (1, rest)
    | l => (1, l)
  if body.2.isEmpty then none
  else if body.2.all isDigitChar then
    let v : Int := body.1 * (digitsVal body.2 : Nat)
    if -(2 ^ 63) ≤ v ∧ v < 2 ^ 63 then some v else none
  else none

/-- `strconv.ParseFloat(s, 64)` on plain decimal numerals:
optional sign, digits with at most one point. -/
def parseGoFloat (s : String) : Option Rat :=
  let body : Rat × List Char :=
    match s.data with
    | '-' :: rest => (-1, rest)
    | '+' :: rest => (1, rest)
    | l => (1, l)
  match splitSep ['.'] body.2 with
  | [ip] =>
      if !ip.isEmpty && ip.all isDigitChar then
        some (body.1 * (digitsVal ip : Rat))
      else none
  | [ip, fp] =>
      if (!ip.isEmpty || !fp.isEmpty) && ip.all isDigitChar && fp.all isDigitChar then
        some (body.1 * ((digitsVal ip : Rat) + (digitsVal fp : Rat) / (10 : Rat) ^ fp.length))
      else none
  | _ => none

/-- `strconv.Atoi` with the error discarded, as in
`page, _ := strconv.Atoi(...)` (handler.go lines 113, 117): a value that
fails to parse contributes 0. -/
def atoiOrZero (s : String) : Int :=
  (parseGoInt s).getD 0

/-- The raw query-string values ListProducts reads via `r.Form.Get`;
an absent parameter reads as `""`. -/
structure RawListQuery where
  category_id : String
  min_price : String
  max_price : String
  search : String
  page : String
  limit : String
deriving Repr, DecidableEq

/-- The filter as the handler assembles it (handler.go lines 90–110):
each field is set only when the raw value is nonempty AND parses at its
declared type — a nonempty value that fails to parse is silently
dropped (`if err == nil`), leaving the field absent. The handler parses
`category_id` as an int64, matching model.go's `*int64` field. -/
structure HandlerFilter where
  category_id : Option Int
  min_price : Option Rat
  max_price : Option Rat
  search : Option String
deriving Repr, DecidableEq

/-- handler.ListProducts filter decoding, lines 90–110. -/
def decodeListFilter (q : RawListQuery) : HandlerFilter :=
  { category_id := if q.category_id ≠ "" then parseGoInt q.category_id else none,
    min_price := if q.min_price ≠ "" then parseGoFloat q.min_price else none,
    max_price := if q.max_price ≠ "" then parseGoFloat q.max_price else none,
    search := if q.search ≠ "" then some q.search else none }

/-- handler.ListProducts pagination resolution, lines 112–124:
`page < 1` (including parse failure, which yields 0) resolves to 1;
`limit < 1 || limit > 100` resolves to 10. -/
def decodePagination (q : RawListQuery) : PaginationParams :=
  let page0 := atoiOrZero q.page
  let limit0 := atoiOrZero q.limit
  { page := if page0 < 1 then 1 else page0,
    limit := if limit0 < 1 || 100 < limit0 then 10 else limit0 }

/-- Bridge from the handler's filter to the repository's: handler.go
stores the parsed `category_id` integer while repository.go consumes a
string (the type conflict noted at `ProductFilter`); the integer is
rendered in decimal to connect the layers. No claim depends on this
rendering. -/
def toRepoFilter (hf : HandlerFilter) : ProductFilter :=
  { category_id := hf.category_id.map intStr,
    min_price := hf.min_price,
    max_price := hf.max_price,
    search := hf.search }

/-- Outcome of one handler invocation: the HTTP status written and
whether the service method was invoked. -/
structure HttpResponse where
  status : Nat
  serviceCalled : Bool
deriving Repr, DecidableEq

/-- handler.CreateProduct: an undecodable body (`none`) yields 400
before the service runs; `ErrInvalidInput` yields 400; any other
service error yields 500; success yields 201. -/
def handlerCreate (db : List Product) (now : Nat) (newId : Int)
    (body : Option CreateProductInput) : HttpResponse :=
  match body with
  | none => { status := 400, serviceCalled := false }
  | some input =>
      match (serviceCreate db now newId input).1 with
      | Except.ok _ => { status := 201, serviceCalled := true }
      | Except.error SvcErr.errInvalidInput => { status := 400, serviceCalled := true }
      | Except.error _ => { status := 500, serviceCalled := true }

/-- handler.GetProduct: unparseable id yields 400 before the service
runs; `ErrProductNotFound` yields 404; any other error 500. -/
def handlerGet (db : List Product) (idRaw : String) : HttpResponse :=
  match parseGoInt idRaw with
  | none => { status := 400, serviceCalled := false }
  | some id =>
      match serviceGet db id with
      | Except.ok _ => { status := 200, serviceCalled := true }
      | Except.error SvcErr.errProductNotFound => { status := 404, serviceCalled := true }
      | Except.error _ => { status := 500, serviceCalled := true }

/-- handler.ListProducts: decodes (with no failure path for
type-malformed values), then calls the service; any service error
yields 500 (lines 126–131). -/
def handlerList (db : List Product) (q : RawListQuery) : HttpResponse :=
  match serviceList db (toRepoFilter (decodeListFilter q)) (decodePagination q) with
  | Except.ok _ => { status := 200, serviceCalled := true }
  | Except.error _ => { status := 500, serviceCalled := true }

/-- handler.UpdateProduct: unparseable id or undecodable body yields 400
before the service runs; then `ErrProductNotFound` → 404,
`ErrInvalidInput` → 400, other errors → 500, success → 204. -/
def handlerUpdate (db : List Product) (now : Nat) (idRaw : String)
    (body : Option UpdateProductInput) : HttpResponse :=
  match parseGoInt idRaw with
  | none => { status := 400, serviceCalled := false }
  | some id =>
      match body with
      | none => { status := 400, serviceCalled := false }
      | some input =>
          match serviceUpdate db now id input with
          | Except.ok _ => { status := 204, serviceCalled := true }
          | Except.error SvcErr.errProductNotFound => { status := 404, serviceCalled := true }
          | Except.error SvcErr.errInvalidInput => { status := 400, serviceCalled := true }
          | Except.error _ => { status := 500, serviceCalled := true }

/-- handler.DeleteProduct: unparseable id yields 400 before the service
runs; `ErrProductNotFound` → 404, other errors → 500, success → 204. -/
def handlerDelete (db : List Product) (idRaw : String) : HttpResponse :=
  match parseGoInt idRaw with
  | none => { status := 400, serviceCalled := false }
  | some id =>
      match serviceDelete db id with
      | Except.ok _ => { status := 204, serviceCalled := true }
      | Except.error SvcErr.errProductNotFound => { status := 404, serviceCalled := true }
      | Except.error _ => { status := 500, serviceCalled := true }

/-! ## Concrete data for witnesses and counterexamples -/

/-- A sample stored row. -/
def sampleA : Product :=
  { id := 1, name := "alpha shoe", description := "a first product",
    price := 5, categories := ["shoes"], created_at := 1, updated_at := 1 }

/-- A sample stored row, created after `sampleA`. -/
def sampleB : Product :=
  { id := 2, name := "beta hat", description := "a second product",
    price := 15, categories := ["Winter Hats"], created_at := 2, updated_at := 2 }

/-- A sample stored row, created after `sampleB`. -/
def sampleC : Product :=
  { id := 3, name := "gamma scarf", description := "a third product",
    price := 25, categories := ["scarves", "winter"], created_at := 3, updated_at := 3 }

/-- The filter with no field supplied. -/
def noFilter : ProductFilter :=
  { category_id := none, min_price := none, max_price := none, search := none }

/-- The update input with every field absent (all four pointers nil). -/
def emptyUpdate : UpdateProductInput :=
  { name := none, description := none, price := none, categories := none }

/-- The update input supplying only a new price. -/
def priceOnlyUpdate (v : Rat) : UpdateProductInput :=
  { name := none, description := none, price := some v, categories := none }

/-- A create input whose required fields are all empty/zero. -/
def emptyCreate : CreateProductInput :=
  { name := "", description := "", price := 0, categories := [] }

/-- A raw List query whose `min_price` value is not a number and whose
`page`/`limit` values fail to parse. -/
def badListQuery : RawListQuery :=
  { category_id := "", min_price := "abc", max_price := "", search := "",
    page := "x", limit := "zz" }

/-! ## Helper lemmas -/

/-- The UPDATE statement text is grammatical exactly when at least one
field of the input is present: with none present the trailing-comma trim
never fires (the text ends in `"SET "`, not `", "`) and the SET list
starts with an empty element. -/
theorem wellFormed_updateQuery_eq_present (input : UpdateProductInput) :
    wellFormedUpdateQuery (updateQuery input) =
      (input.name.isSome || input.description.isSome ||
       input.price.isSome || input.categories.isSome) := by
  obtain ⟨n, d, pr, c⟩ := input
  rcases n with _ | n <;> rcases d with _ | d <;> rcases pr with _ | pr <;>
    rcases c with _ | c <;> rfl

/-- Applying the SET list of an update input to a row overwrites exactly
the present fields plus `updated_at`, and leaves `id`, `created_at` and
every absent field unchanged. -/
theorem applyUpdate_eq (now : Nat) (input : UpdateProductInput) (p : Product) :
    applyUpdate now input p =
      { id := p.id, name := input.name.getD p.name,
        description := input.description.getD p.description,
        price := input.price.getD p.price,
        categories := input.categories.getD p.categories,
        created_at := p.created_at, updated_at := now } := by
  obtain ⟨n, d, pr, c⟩ := input
  rcases n with _ | n <;> rcases d with _ | d <;> rcases pr with _ | pr <;>
    rcases c with _ | c <;> rfl

/-! ## Claims -/

/-- C4: for every combination of supplied filter fields, the argument
list passed to the count query equals the argument list passed to the
page query with exactly the two trailing pagination arguments (limit and
offset) removed; the page query's arguments are the WHERE-clause
arguments followed by limit and offset, and the count query receives
exactly the WHERE-clause arguments. -/
theorem c4_count_args_eq_where_args (filter : ProductFilter) (pg : PaginationParams) :
    countQueryArgs filter pg = whereArgs filter ∧
    listQueryArgs filter pg =
      whereArgs filter ++ [SqlArg.i pg.limit, SqlArg.i ((pg.page - 1) * pg.limit)] := by
  refine ⟨?_, rfl⟩
  unfold countQueryArgs listQueryArgs
  simp

/-- C6: the List matching predicate is exactly the conjunction of the
supplied conditions: case-insensitive substring category match against
any element of the categories list, inclusive price bounds, and
free-text search over name OR description. -/
theorem c6_row_predicate_eq_spec_conjunction (filter : ProductFilter) (p : Product) :
    rowMatches filter p = specListPred filter p := by
  obtain ⟨c, mn, mx, s⟩ := filter
  rcases c with _ | c <;> rcases mn with _ | mn <;> rcases mx with _ | mx <;>
    rcases s with _ | s <;>
    simp only [rowMatches, whereParts, specListPred] <;>
    (try split_ifs) <;>
    simp_all [evalClause, List.all_append, Bool.and_assoc]

/-- C5 (amended): for every UpdateProductInput with at least one field
present, applied to an id with a matching row, Update writes exactly the
present fields plus `updated_at` and leaves every absent field (and `id`
and `created_at`) unchanged. (The all-absent input instead fails, see
the counterexample.) -/
theorem c5_update_writes_exactly_present_fields (db : List Product) (now : Nat) (id : Int)
    (input : UpdateProductInput)
    (hpresent : (input.name.isSome || input.description.isSome ||
                 input.price.isSome || input.categories.isSome) = true)
    (hrow : ((db.filter (fun p => p.id == id)).length == 0) = false) :
    repoUpdate db now id input =
      Except.ok (db.map (fun p => if p.id == id then
        { id := p.id, name := input.name.getD p.name,
          description := input.description.getD p.description,
          price := input.price.getD p.price,
          categories := input.categories.getD p.categories,
          created_at := p.created_at, updated_at := now } else p)) := by
  have hw : wellFormedUpdateQuery (updateQuery input) = true := by
    rw [wellFormed_updateQuery_eq_present]; exact hpresent
  simp only [repoUpdate, hw, hrow, if_true, Bool.false_eq_true, if_false]
  refine congrArg Except.ok (List.map_congr_left ?_)
  intro p _
  by_cases hid : (p.id == id) = true
  · simp only [hid, if_true, applyUpdate_eq]
  · simp only [Bool.not_eq_true] at hid
    simp only [hid, Bool.false_eq_true, if_false]

/-- C5 counterexample: the claim quantifies over every UpdateProductInput,
but for the all-absent input Update does not leave the row unchanged with
`updated_at` advanced — it fails outright with a storage error, because
the generated statement is ungrammatical. -/
theorem c5_all_absent_update_not_frame :
    repoUpdate [sampleA] 9 1 emptyUpdate =
      Except.error { msg := "error updating product: invalid statement", wrapsNoRows := false } ∧
    repoUpdate [sampleA] 9 1 emptyUpdate ≠
      Except.ok [{ sampleA with updated_at := 9 }] := by
  exact ⟨by decide, by decide⟩

/-- Witness for `c5_update_writes_exactly_present_fields`: updating only
the price of the stored row `sampleA` rewrites its price and `updated_at`
and nothing else. -/
theorem c5_update_writes_exactly_present_fields_witness :
    (((priceOnlyUpdate 7).name.isSome || (priceOnlyUpdate 7).description.isSome ||
      (priceOnlyUpdate 7).price.isSome || (priceOnlyUpdate 7).categories.isSome) = true) ∧
    ((([sampleA].filter (fun p => p.id == 1)).length == 0) = false) ∧
    repoUpdate [sampleA] 9 1 (priceOnlyUpdate 7) =
      Except.ok ([sampleA].map (fun p => if p.id == 1 then
        { id := p.id, name := (priceOnlyUpdate 7).name.getD p.name,
          description := (priceOnlyUpdate 7).description.getD p.description,
          price := (priceOnlyUpdate 7).price.getD p.price,
          categories := (priceOnlyUpdate 7).categories.getD p.categories,
          created_at := p.created_at, updated_at := 9 } else p)) :=
  ⟨by decide, by decide,
   c5_update_writes_exactly_present_fields [sampleA] 9 1 (priceOnlyUpdate 7)
     (by decide) (by decide)⟩

/-- C10: the all-absent update input makes repository.Update build the
statement `UPDATE products SET , updated_at = NOW() WHERE id = $1` —
the trailing-comma trim never fires since the text ends in `"SET "` —
an ungrammatical statement, so the update fails with a storage error
that wraps no sentinel, the service passes it through, and the handler
answers 500 rather than succeeding as a no-op or answering 400. -/
theorem c10_all_absent_update_invalid_sql_500 (db : List Product) (now : Nat) (id : Int) :
    updateQuery emptyUpdate = "UPDATE products SET , updated_at = NOW() WHERE id = $1" ∧
    wellFormedUpdateQuery (updateQuery emptyUpdate) = false ∧
    repoUpdate db now id emptyUpdate =
      Except.error { msg := "error updating product: invalid statement", wrapsNoRows := false } ∧
    serviceUpdate db now id emptyUpdate =
      Except.error (SvcErr.passthrough
        { msg := "error updating product: invalid statement", wrapsNoRows := false }) ∧
    handlerUpdate db now "1" (some emptyUpdate) = { status := 500, serviceCalled := true } := by
  have hw : wellFormedUpdateQuery (updateQuery emptyUpdate) = false := by decide
  have hrepo : repoUpdate db now id emptyUpdate =
      Except.error { msg := "error updating product: invalid statement", wrapsNoRows := false } := by
    simp only [repoUpdate, hw, Bool.false_eq_true, if_false]
  have hsvc : ∀ j : Int, serviceUpdate db now j emptyUpdate =
      Except.error (SvcErr.passthrough
        { msg := "error updating product: invalid statement", wrapsNoRows := false }) := by
    intro j
    have hrepoj : repoUpdate db now j emptyUpdate =
        Except.error { msg := "error updating product: invalid statement", wrapsNoRows := false } := by
      simp only [repoUpdate, hw, Bool.false_eq_true, if_false]
    simp only [serviceUpdate, validateUpdateInput, if_true, hrepoj, liftRepoErr]
    rfl
  refine ⟨by decide, hw, hrepo, hsvc id, ?_⟩
  have hparse : parseGoInt "1" = some 1 := by decide
  simp only [handlerUpdate, hparse, hsvc 1]

/-- C1: the claim that Update/Delete on a missing id surface
`ErrProductNotFound`/404 fails on the code. The repository returns the
plain `fmt.Errorf("product not found")`, which wraps no sentinel, so the
service's `errors.Is(err, sql.ErrNoRows)` translation never fires and
the handler answers 500; the second of two deletes of the same id also
answers 500. -/
theorem c1_missing_id_delete_update_yield_500_not_404 :
    repoDelete ([] : List Product) 1 =
      Except.error { msg := "product not found", wrapsNoRows := false } ∧
    serviceDelete ([] : List Product) 1 =
      Except.error (SvcErr.passthrough { msg := "product not found", wrapsNoRows := false }) ∧
    handlerDelete ([] : List Product) "1" = { status := 500, serviceCalled := true } ∧
    serviceUpdate ([] : List Product) 5 1 (priceOnlyUpdate 2) =
      Except.error (SvcErr.passthrough { msg := "product not found", wrapsNoRows := false }) ∧
    handlerUpdate ([] : List Product) 5 "1" (some (priceOnlyUpdate 2)) =
      { status := 500, serviceCalled := true } ∧
    repoDelete [sampleA] 1 = Except.ok [] ∧
    handlerDelete ([] : List Product) "1" ≠ { status := 404, serviceCalled := true } ∧
    serviceDelete ([] : List Product) 1 ≠ Except.error SvcErr.errProductNotFound := by
  decide

/-- C2: the claim that an empty required field yields InvalidInput with
no storage call fails on the code: `CreateProductInput` carries no
`validate` tags, so the validator accepts every input, the repository's
Create is always invoked, and the all-empty input is stored and returned
with status 201 rather than rejected. -/
theorem c2_empty_required_fields_reach_storage :
    (∀ (db : List Product) (now : Nat) (newId : Int) (input : CreateProductInput),
      (serviceCreate db now newId input).2 = true) ∧
    (serviceCreate ([] : List Product) 7 1 emptyCreate).1 =
      Except.ok { id := 1, name := "", description := "", price := 0,
                  categories := [], created_at := 7, updated_at := 7 } ∧
    (serviceCreate ([] : List Product) 7 1 emptyCreate).1 ≠
      Except.error SvcErr.errInvalidInput ∧
    handlerCreate ([] : List Product) 7 1 (some emptyCreate) =
      { status := 201, serviceCalled := true } := by
  refine ⟨fun db now newId input => rfl, by decide, by decide, by decide⟩

/-- C9: fetching an id that matches no row fails with NotFound: the
repository wraps `sql.ErrNoRows`, the service translates it to
`ErrProductNotFound`, and the handler answers 404. -/
theorem c9_get_missing_id_yields_notfound_404 (db : List Product) (id : Int) (idRaw : String)
    (h : ∀ p ∈ db, p.id ≠ id) (hr : parseGoInt idRaw = some id) :
    repoGetByID db id =
      Except.error { msg := "product not found: sql: no rows in result set", wrapsNoRows := true } ∧
    serviceGet db id = Except.error SvcErr.errProductNotFound ∧
    handlerGet db idRaw = { status := 404, serviceCalled := true } := by
  have hfind : db.find? (fun p => p.id == id) = none := by
    rw [List.find?_eq_none]
    intro p hp
    simpa using h p hp
  have h1 : repoGetByID db id =
      Except.error { msg := "product not found: sql: no rows in result set", wrapsNoRows := true } := by
    simp only [repoGetByID, hfind]
  have h2 : serviceGet db id = Except.error SvcErr.errProductNotFound := by
    simp only [serviceGet, h1, liftRepoErr, if_true]
  refine ⟨h1, h2, ?_⟩
  simp only [handlerGet, hr, h2]

/-- Witness for `c9_get_missing_id_yields_notfound_404`: fetching id 1
from the empty table answers 404 through every layer. -/
theorem c9_get_missing_id_yields_notfound_404_witness :
    (∀ p ∈ ([] : List Product), p.id ≠ 1) ∧ parseGoInt "1" = some 1 ∧
    (repoGetByID ([] : List Product) 1 =
      Except.error { msg := "product not found: sql: no rows in result set", wrapsNoRows := true } ∧
     serviceGet ([] : List Product) 1 = Except.error SvcErr.errProductNotFound ∧
     handlerGet ([] : List Product) "1" = { status := 404, serviceCalled := true }) :=
  ⟨by simp, by decide,
   c9_get_missing_id_yields_notfound_404 ([] : List Product) 1 "1" (by simp) (by decide)⟩

/-- C8: every pagination value the handler hands to the service (and so
to the repository) satisfies page ≥ 1 and 1 ≤ limit ≤ 100, whatever the
raw query values were; the service's validator accepts it, so its
InvalidInput branch for pagination is unreachable from the handler. -/
theorem c8_resolved_pagination_always_valid (q : RawListQuery) (db : List Product)
    (hf : HandlerFilter) :
    1 ≤ (decodePagination q).page ∧
    1 ≤ (decodePagination q).limit ∧
    (decodePagination q).limit ≤ 100 ∧
    validatePagination (decodePagination q) = true ∧
    serviceList db (toRepoFilter hf) (decodePagination q) ≠
      Except.error SvcErr.errInvalidInput := by
  have hpage : 1 ≤ (decodePagination q).page := by
    show 1 ≤ (if atoiOrZero q.page < 1 then 1 else atoiOrZero q.page)
    split <;> omega
  have hlim1 : 1 ≤ (decodePagination q).limit := by
    show 1 ≤ (if atoiOrZero q.limit < 1 || 100 < atoiOrZero q.limit then 10 else atoiOrZero q.limit)
    split <;> rename_i h <;>
      (try simp only [decide_eq_true_eq, Bool.or_eq_true] at h) <;> omega
  have hlim2 : (decodePagination q).limit ≤ 100 := by
    show (if atoiOrZero q.limit < 1 || 100 < atoiOrZero q.limit then 10 else atoiOrZero q.limit) ≤ 100
    split <;> rename_i h <;>
      (try simp only [decide_eq_true_eq, Bool.or_eq_true] at h) <;> omega
  have hval : validatePagination (decodePagination q) = true := by
    simp only [validatePagination, Bool.and_eq_true, decide_eq_true_eq]
    exact ⟨⟨hpage, hlim1⟩, hlim2⟩
  refine ⟨hpage, hlim1, hlim2, hval, ?_⟩
  simp only [serviceList, hval, if_true]
  exact fun hcon => Except.noConfusion hcon

/-- C3 counterexample: a request whose `min_price` query value is
non-numeric (and whose page/limit are unparsable) is not answered 400 at
decode time — every malformed query value is silently dropped and the
service is called, answering 200. -/
theorem c3_malformed_query_value_not_400 :
    handlerList ([] : List Product) badListQuery = { status := 200, serviceCalled := true } ∧
    decodeListFilter badListQuery =
      { category_id := none, min_price := none, max_price := none, search := none } ∧
    handlerList ([] : List Product) badListQuery ≠ { status := 400, serviceCalled := false } := by
  decide

/-- C3 (amended): an undecodable request body yields 400 at decode time
before the service runs (create and update alike); a query value that
fails to parse at its declared type never yields 400 — the filter field
is silently dropped and unparsable page/limit resolve to the defaults
1/10, after which the request proceeds into the service. -/
theorem c3_decode_errors (db : List Product) (now : Nat) (newId : Int)
    (q : RawListQuery) (idRaw : String) (id : Int)
    (hmin : parseGoFloat q.min_price = none)
    (hmax : parseGoFloat q.max_price = none)
    (hcat : parseGoInt q.category_id = none)
    (hpage : parseGoInt q.page = none)
    (hlimit : parseGoInt q.limit = none)
    (hid : parseGoInt idRaw = some id) :
    handlerCreate db now newId none = { status := 400, serviceCalled := false } ∧
    handlerUpdate db now idRaw none = { status := 400, serviceCalled := false } ∧
    (decodeListFilter q).min_price = none ∧
    (decodeListFilter q).max_price = none ∧
    (decodeListFilter q).category_id = none ∧
    decodePagination q = { page := 1, limit := 10 } ∧
    (handlerList db q).status ≠ 400 ∧
    (handlerList db q).serviceCalled = true := by
  have hl : (handlerList db q).status ≠ 400 ∧ (handlerList db q).serviceCalled = true := by
    cases hsl : serviceList db (toRepoFilter (decodeListFilter q)) (decodePagination q) <;>
      simp [handlerList, hsl]
  refine ⟨rfl, ?_, ?_, ?_, ?_, ?_, hl.1, hl.2⟩
  · simp only [handlerUpdate, hid]
  · show (if q.min_price ≠ "" then parseGoFloat q.min_price else none) = none
    split <;> simp [hmin]
  · show (if q.max_price ≠ "" then parseGoFloat q.max_price else none) = none
    split <;> simp [hmax]
  · show (if q.category_id ≠ "" then parseGoInt q.category_id else none) = none
    split <;> simp [hcat]
  · have h1 : atoiOrZero q.page = 0 := by simp [atoiOrZero, hpage]
    have h2 : atoiOrZero q.limit = 0 := by simp [atoiOrZero, hlimit]
    simp [decodePagination, h1, h2]

/-- Witness for `c3_decode_errors` at the concrete malformed query
`badListQuery` (min_price "abc", page "x", limit "zz"). -/
theorem c3_decode_errors_witness :
    parseGoFloat badListQuery.min_price = none ∧
    parseGoInt badListQuery.page = none ∧
    (handlerCreate ([] : List Product) 0 0 none = { status := 400, serviceCalled := false } ∧
     handlerUpdate ([] : List Product) 0 "1" none = { status := 400, serviceCalled := false } ∧
     (decodeListFilter badListQuery).min_price = none ∧
     (decodeListFilter badListQuery).max_price = none ∧
     (decodeListFilter badListQuery).category_id = none ∧
     decodePagination badListQuery = { page := 1, limit := 10 } ∧
     (handlerList ([] : List Product) badListQuery).status ≠ 400 ∧
     (handlerList ([] : List Product) badListQuery).serviceCalled = true) :=
  ⟨by decide, by decide,
   c3_decode_errors ([] : List Product) 0 0 badListQuery "1" 1
     (by decide) (by decide) (by decide) (by decide) (by decide) (by decide)⟩

/-- C7: for page ≥ 1, List returns at most `limit` rows — exactly the
slice of the matching rows ordered by `created_at` descending that skips
`(page-1)*limit` rows — every returned row satisfies the filter, and
`total_count` equals the number of all matching rows, independent of
page and limit. -/
theorem c7_list_pagination_shape (db : List Product) (f : ProductFilter)
    (pg pg2 : PaginationParams) (r : Product)
    (hp : 1 ≤ pg.page)
    (hr : r ∈ (runList db f pg).1) :
    (runList db f pg).1.length ≤ pg.limit.toNat ∧
    (runList db f pg).1 =
      (((db.filter (rowMatches f)).insertionSort createdGe).drop
        ((pg.page - 1) * pg.limit).toNat).take pg.limit.toNat ∧
    List.Pairwise createdGe (runList db f pg).1 ∧
    rowMatches f r = true ∧
    (runList db f pg).2 = (db.filter (rowMatches f)).length ∧
    (runList db f pg2).2 = (runList db f pg).2 := by
  have hsub : (runList db f pg).1.Sublist
      ((db.filter (rowMatches f)).insertionSort createdGe) := by
    show ((((db.filter (rowMatches f)).insertionSort createdGe).drop
      ((pg.page - 1) * pg.limit).toNat).take pg.limit.toNat).Sublist _
    exact (List.take_sublist _ _).trans (List.drop_sublist _ _)
  refine ⟨?_, rfl, ?_, ?_, rfl, rfl⟩
  · show ((((db.filter (rowMatches f)).insertionSort createdGe).drop
      ((pg.page - 1) * pg.limit).toNat).take pg.limit.toNat).length ≤ pg.limit.toNat
    exact List.length_take_le _ _
  · exact List.Pairwise.sublist hsub (List.sorted_insertionSort createdGe _)
  · have hmem : r ∈ (db.filter (rowMatches f)).insertionSort createdGe := hsub.subset hr
    have hmem2 : r ∈ db.filter (rowMatches f) :=
      (List.perm_insertionSort createdGe _).mem_iff.mp hmem
    exact (List.mem_filter.mp hmem2).2

/-- Witness for `c7_list_pagination_shape`: page 2 with limit 1 over a
three-row table returns exactly the second-newest row, `sampleB`. -/
theorem c7_list_pagination_shape_witness :
    (1 ≤ (⟨2, 1⟩ : PaginationParams).page) ∧
    sampleB ∈ (runList [sampleA, sampleB, sampleC] noFilter ⟨2, 1⟩).1 ∧
    ((runList [sampleA, sampleB, sampleC] noFilter ⟨2, 1⟩).1.length ≤
        (⟨2, 1⟩ : PaginationParams).limit.toNat ∧
     (runList [sampleA, sampleB, sampleC] noFilter ⟨2, 1⟩).1 =
       ((([sampleA, sampleB, sampleC].filter (rowMatches noFilter)).insertionSort
           createdGe).drop
         (((⟨2, 1⟩ : PaginationParams).page - 1) * (⟨2, 1⟩ : PaginationParams).limit).toNat).take
         (⟨2, 1⟩ : PaginationParams).limit.toNat ∧
     List.Pairwise createdGe (runList [sampleA, sampleB, sampleC] noFilter ⟨2, 1⟩).1 ∧
     rowMatches noFilter sampleB = true ∧
     (runList [sampleA, sampleB, sampleC] noFilter ⟨2, 1⟩).2 =
       ([sampleA, sampleB, sampleC].filter (rowMatches noFilter)).length ∧
     (runList [sampleA, sampleB, sampleC] noFilter ⟨1, 5⟩).2 =
       (runList [sampleA, sampleB, sampleC] noFilter ⟨2, 1⟩).2) :=
  ⟨by decide, by decide,
   c7_list_pagination_shape [sampleA, sampleB, sampleC] noFilter ⟨2, 1⟩ ⟨1, 5⟩ sampleB
     (by decide) (by decide)⟩

end ECommerce
